import Mathlib

/-!
Verification of the session/authentication lifecycle and the
operation-confirmation polling of the evrlink-base-batch client.

The development shallowly embeds the relevant functions of
`src/services/api.ts` (DatabaseEvents, loginWithWallet, checkAuthState,
transferGiftCard, claimGiftCard) and the polling `useEffect` plus
`checkBackgroundStatus` of the CreateBackground page.  Effects the code
performs against the outside world (localStorage, the HTTP layer, timers)
are made explicit: storage is threaded as a record, each network call is
appended to a call log, and the response to each call is an input of the
embedded function.

The file is organised as definitions first, then the theorems.
-/

namespace Evrlink

/-- JavaScript string truthiness for an optional string: `null`/`undefined`
and the empty string are falsy. -/
def strTruthy : Option String → Bool
  | none => false
  | some s => if s = "" then false else true

/-- Models JavaScript `String.prototype.toLowerCase` (ASCII case folding,
which is all wallet addresses use). -/
def jsToLowerCase (s : String) : String := ⟨s.data.map Char.toLower⟩

/-- Splits a character list on `'.'`, keeping empty segments, exactly as
JavaScript `split(".")` does on the underlying character sequence. -/
def splitCharsOnDot : List Char → List (List Char)
  | [] => [[]]
  | c :: rest =>
    if c = '.' then [] :: splitCharsOnDot rest
    else
      match splitCharsOnDot rest with
      | [] => [[c]]
      | group :: groups => (c :: group) :: groups

/-- Models JavaScript `token.split(".")` (api.ts line 875). -/
def splitOnDots (s : String) : List String :=
  (splitCharsOnDot s.data).map fun cs => ⟨cs⟩

/-- The two localStorage keys the session code uses (`"token"` and
`"walletAddress"`); `none` models an absent key. -/
structure Store where
  token : Option String
  walletAddress : Option String
deriving DecidableEq

/-- The decoded token payload as far as `checkAuthState` inspects it:
only the `exp` claim (seconds since epoch) is read.  `none` models a
payload with no (or a non-numeric) `exp` property. -/
structure Claims where
  exp : Option Int
deriving DecidableEq

/-- The body of a 2xx response to `POST /api/auth/login`, as far as
`loginWithWallet` inspects it.  `token := none` also covers a null
response body (`!response.data || !response.data.token`). -/
structure LoginData where
  token : Option String
deriving DecidableEq

/-- Outcome of the `POST /api/auth/login` round trip.
`httpError` carries `error.response.data.error` when the server supplied
one, plus `error.message`; `netError` is a failure with no response. -/
inductive LoginOutcome
  | success (data : LoginData)
  | httpError (backendError : Option String) (message : String)
  | netError (message : String)
deriving DecidableEq

/-- A returned value or a thrown exception, as seen by the caller. -/
inductive CallResult (α : Type)
  | ok (value : α)
  | thrown (message : String)
deriving DecidableEq

/-- Everything `loginWithWallet` did: the storage it left behind, the
address it put in the wire request body, and its return/throw. -/
structure LoginResult where
  store : Store
  requestAddress : String
  result : CallResult LoginData
deriving DecidableEq

/-- `error.message || "Unknown error"` -/
def msgOr (m : String) : String := if m = "" then "Unknown error" else m

/-- Embedding of `loginWithWallet` (api.ts lines 752-827).  The HTTP
response is an input (`outcome`); `store` is the localStorage state at
call time.  The post-write verification (lines 794-798) always succeeds
here because storage is modelled as a reliable record, so the read-back
equals the value just written.

The whole body sits in a `try` whose catch (lines 803-826) re-wraps
whatever escaped: the local missing-token throw of line 780 carries no
`.response`, so the caller sees it re-thrown at line 823 as
`"Failed to login with wallet: " + error.message`; an HTTP rejection is
re-thrown as `"Login failed: " + error.response.data.error` only when
that field is truthy (non-empty), otherwise it too falls through to the
line-823 wrap. -/
def loginWithWallet (walletAddress _signature : String) (outcome : LoginOutcome)
    (store : Store) : LoginResult :=
  let normalizedAddress := jsToLowerCase walletAddress
  match outcome with
  | .success data =>
    match data.token with
    | none =>
      -- line 780 throws; the catch re-wraps it at line 823
      { store := store, requestAddress := normalizedAddress,
        result := .thrown
          "Failed to login with wallet: Authentication failed: server response missing token" }
    | some t =>
      if t = "" then
        { store := store, requestAddress := normalizedAddress,
          result := .thrown
            "Failed to login with wallet: Authentication failed: server response missing token" }
      else
        -- localStorage.setItem("token", token);
        -- localStorage.setItem("walletAddress", walletAddress);  (original case)
        { store := { token := some t, walletAddress := some walletAddress },
          requestAddress := normalizedAddress,
          result := .ok data }
  | .httpError backendError message =>
    { store := store, requestAddress := normalizedAddress,
      result := .thrown (match backendError with
        | some e =>
          if e = "" then "Failed to login with wallet: " ++ msgOr message
          else "Login failed: " ++ e
        | none => "Failed to login with wallet: " ++ msgOr message) }
  | .netError message =>
    { store := store, requestAddress := normalizedAddress,
      result := .thrown ("Failed to login with wallet: " ++ msgOr message) }

/-! ## DatabaseEvents (api.ts lines 42-82)

Listeners are JavaScript function references compared with `!==`; we model
a reference as an opaque id with decidable equality, and what calling a
listener does (return normally, or throw with some message) as a separate
`behave` map from ids to outcomes. -/

/-- A listener reference (JS functions are compared by identity). -/
abbrev HandlerId := Nat

/-- The payload handed to listeners.  Only its identity matters to the
event bus, so the remaining `Background` fields are omitted. -/
structure Background where
  id : String
deriving DecidableEq

/-- `onBackgroundAdded` (api.ts line 49): `listeners.push(callback)`. -/
def onBackgroundAdded (listeners : List HandlerId) (callback : HandlerId) :
    List HandlerId :=
  listeners ++ [callback]

/-- `offBackgroundAdded` (api.ts line 60):
`listeners.filter((cb) => cb !== callback)` — note that `filter` drops
every occurrence of `callback`, not just one. -/
def offBackgroundAdded (listeners : List HandlerId) (callback : HandlerId) :
    List HandlerId :=
  listeners.filter fun cb => cb != callback

/-- `emitBackgroundAdded` (api.ts line 73):
`listeners.forEach((callback) => callback(background))`.
`behave cb bg = none` means the listener returns normally; `some e`
means it throws `e`.  `forEach` has no exception handling, so the first
throw aborts the iteration and escapes.  Returns the listeners that were
actually invoked (in order) and the escaping exception, if any. -/
def emitBackgroundAdded (behave : HandlerId → Background → Option String)
    (listeners : List HandlerId) (background : Background) :
    List HandlerId × Option String :=
  match listeners with
  | [] => ([], none)
  | cb :: rest =>
    match behave cb background with
    | none =>
      let r := emitBackgroundAdded behave rest background
      (cb :: r.1, r.2)
    | some e => ([cb], some e)

/-! ## Confirmation polling (CreateBackground page)

The page keeps `pendingBackgroundId` in component state.  A `useEffect`
keyed on it runs `checkBackgroundStatus` immediately and then every 10
seconds via `setInterval`; its cleanup (run on unmount or when
`pendingBackgroundId` changes) calls `clearInterval`.  The async
continuation of an in-flight `verifyBackgroundStatus` request is not
guarded by any liveness flag, so it runs to completion even after the
cleanup has fired. -/

/-- The toasts the status check publishes. -/
inductive ToastMsg
  | mintConfirmed (blockchainId : String) (transactionHash : String)
  | mintFailed
deriving DecidableEq

/-- `response.background` of `GET /api/background/verify/:id`. -/
structure VerifyBackground where
  blockchainId : Option String
  transactionHash : Option String
deriving DecidableEq

/-- The body of a `GET /api/background/verify/:id` response. -/
structure VerifyResponse where
  status : String
  background : VerifyBackground
deriving DecidableEq

/-- Outcome of one status request: a response body, or a thrown error
(`verifyBackgroundStatus` rethrows transport failures). -/
inductive StatusCheckOutcome
  | response (r : VerifyResponse)
  | failure
deriving DecidableEq

/-- State of the CreateBackground polling machinery.  `inFlight` lists
the ids of status requests that have been issued but whose responses
have not yet arrived; `toasts` records every published result. -/
structure PollerState where
  pendingBackgroundId : Option Nat
  intervalActive : Bool
  inFlight : List Nat
  toasts : List ToastMsg
deriving DecidableEq

/-- The polling effect body (part_001 lines 40-48): runs when
`pendingBackgroundId` becomes `some id` — issues the initial check and
installs the interval timer. -/
def startPolling (s : PollerState) (id : Nat) : PollerState :=
  { s with pendingBackgroundId := some id, intervalActive := true,
           inFlight := s.inFlight ++ [id] }

/-- One interval tick (part_001 lines 45-47): the callback only runs
while the interval is installed; it issues a status request for the
captured id. -/
def pollingTick (s : PollerState) (id : Nat) : PollerState :=
  if s.intervalActive then { s with inFlight := s.inFlight ++ [id] } else s

/-- The effect cleanup (part_001 lines 50-54): `clearInterval` — this is
the poller's `cancel`/teardown.  It stops future ticks but does nothing
to requests already in flight. -/
def pollingCleanup (s : PollerState) : PollerState :=
  { s with intervalActive := false }

/-- The continuation of `checkBackgroundStatus` (part_001 lines 57-96)
once the awaited status request for `id` settles.  It consults no
cancellation flag: a confirmed response with a truthy `blockchainId`
publishes the success toast and clears `pendingBackgroundId`; a failed
response publishes the failure toast; anything else (including a thrown
request error, caught at line 93) leaves the state to keep polling. -/
def checkBackgroundStatus (s : PollerState) (id : Nat)
    (outcome : StatusCheckOutcome) : PollerState :=
  let s := { s with inFlight := s.inFlight.erase id }
  match outcome with
  | .failure => s
  | .response r =>
    if r.status == "confirmed" && strTruthy r.background.blockchainId then
      { s with
        toasts := s.toasts ++ [.mintConfirmed (r.background.blockchainId.getD "")
                                 (r.background.transactionHash.getD "")],
        pendingBackgroundId := none }
    else if r.status == "failed" then
      { s with toasts := s.toasts ++ [.mintFailed], pendingBackgroundId := none }
    else s

/-! ## Gift-card operations (api.ts lines 485-505 and 539-566) -/

/-- Outcome of a gift-card POST: a success payload (opaque here), or a
failure carrying `error.response?.data?.error` when the backend supplied
a domain-level message. -/
inductive ApiCallOutcome
  | success (data : String)
  | failure (backendError : Option String)
deriving DecidableEq

/-- `transferGiftCard` (api.ts lines 485-505): returns `response.data`,
but on any failure throws the fixed string `"Failed to transfer gift
card"`, discarding the backend's message (it is only `console.error`ed). -/
def transferGiftCard (outcome : ApiCallOutcome) : CallResult String :=
  match outcome with
  | .success data => .ok data
  | .failure _ => .thrown "Failed to transfer gift card"

/-- The `{ success, data, error }` object `claimGiftCard` resolves to. -/
structure ClaimCardResult where
  success : Bool
  data : Option String
  error : Option String
deriving DecidableEq

/-- `claimGiftCard` (api.ts lines 539-566): on failure returns
`error.response?.data?.error || "Failed to claim gift card"`, i.e. the
backend's message is passed through when present and non-empty. -/
def claimGiftCard (outcome : ApiCallOutcome) : ClaimCardResult :=
  match outcome with
  | .success data => { success := true, data := some data, error := none }
  | .failure backendError =>
    { success := false, data := none,
      error := some (match backendError with
        | some e => if e = "" then "Failed to claim gift card" else e
        | none => "Failed to claim gift card") }

/-! ## checkAuthState (api.ts lines 849-998)

The function reads localStorage, optionally refreshes via
`loginWithWallet`, and probes `GET /api/auth/me`.  The environment
supplies everything the outside world contributes: the stored keys, the
composite `JSON.parse(atob(segment))` decoder, the clock, the probe
outcome, and the outcomes of successive login requests (consumed in
order; a run performs at most two). -/

/-- Outcome of the `GET /api/auth/me` liveness probe.  `success
hasIdentity` is a 2xx response, with `hasIdentity` the truth of
`response.data && (response.data.user || response.data.walletAddress)`;
`failure status message` is a rejection, `status = none` meaning no
response object (network failure). -/
inductive ProbeOutcome
  | success (hasIdentity : Bool)
  | failure (status : Option Nat) (message : String)
deriving DecidableEq

/-- A network call issued during `checkAuthState`, in order.  `login`
records the address sent in the request body. -/
inductive NetCall
  | login (requestAddress : String)
  | probe
deriving DecidableEq

/-- What a `checkAuthState` run produced: the returned record, the
network calls in order, and the final storage. -/
structure AuthCheckResult where
  isAuthenticated : Bool
  message : String
  calls : List NetCall
  store : Store
deriving DecidableEq

/-- The environment of one `checkAuthState` run. -/
structure Env where
  token : Option String
  walletAddress : Option String
  /-- models `JSON.parse(atob(segment))` applied to a token segment;
  `none` when either step throws or the result has no usable `exp`. -/
  parseClaims : String → Option Claims
  /-- `new Date().getTime()`, milliseconds since epoch. -/
  nowMs : Int
  probe : ProbeOutcome
  logins : List LoginOutcome

/-- The expiry test of api.ts lines 875-885: true iff the token has
three dot-separated segments, the middle one decodes, the payload's
`exp` is truthy (nonzero — `if (payload.exp)`), and
`exp*1000 - now < 10*60*1000`. -/
def expSoonCheck (token : String) (parse : String → Option Claims)
    (nowMs : Int) : Bool :=
  match splitOnDots token with
  | [_, seg, _] =>
    match parse seg with
    | some payload =>
      match payload.exp with
      | some e => if e = 0 then false else decide (e * 1000 - nowMs < 10 * 60 * 1000)
      | none => false
    | none => false
  | _ => false

/-- The local (network-free) classification implicit in `checkAuthState`:
missing/empty token or address → `Unauthenticated` (lines 858-871);
decodable nonzero expiry within 10 minutes → `ExpiringSoon` (refresh
branch, line 885); everything else, including undecodable tokens, falls
through to the liveness probe → `Valid`. -/
inductive SessionState
  | Unauthenticated
  | ExpiringSoon
  | Valid
deriving DecidableEq

/-- See `SessionState`. -/
def evaluateLocal (token walletAddress : Option String)
    (parse : String → Option Claims) (nowMs : Int) : SessionState :=
  match token, walletAddress with
  | some t, some w =>
    if t = "" ∨ w = "" then .Unauthenticated
    else if expSoonCheck t parse nowMs then .ExpiringSoon
    else .Valid
  | _, _ => .Unauthenticated

/-- The login outcome the next `loginWithWallet` call will see (outcomes
are consumed in order; a missing entry acts as a network failure). -/
def firstLogin (logins : List LoginOutcome) : LoginOutcome :=
  logins.headD (.netError "")

/-- The probe-and-repair tail of `checkAuthState` (api.ts lines 923-989):
one `GET /api/auth/me`; on 2xx, authenticated iff the body carries an
identity; on a 401 rejection, exactly one `loginWithWallet` whose
outcome decides the result; on any other rejection, not authenticated
with the probe error's message and no refresh. -/
def probePhase (env : Env) (walletAddress : String) (callsSoFar : List NetCall)
    (store : Store) (logins : List LoginOutcome) : AuthCheckResult :=
  let calls := callsSoFar ++ [NetCall.probe]
  match env.probe with
  | .success hasIdentity =>
    if hasIdentity then
      { isAuthenticated := true, message := "Authentication validated successfully",
        calls := calls, store := store }
    else
      { isAuthenticated := false, message := "Authentication validation failed",
        calls := calls, store := store }
  | .failure status message =>
    if status = some 401 then
      let outcome := firstLogin logins
      let lr := loginWithWallet walletAddress
        ("mock_signature_for_" ++ walletAddress) outcome store
      let calls' := calls ++ [NetCall.login lr.requestAddress]
      match lr.result with
      | .ok _ =>
        { isAuthenticated := true, message := "Authentication refreshed successfully",
          calls := calls', store := lr.store }
      | .thrown _ =>
        -- the refresh error is caught (line 974); the function falls
        -- through to report the original probe error's message
        { isAuthenticated := false,
          message := "Authentication validation failed: " ++ msgOr message,
          calls := calls', store := lr.store }
    else
      { isAuthenticated := false,
        message := "Authentication validation failed: " ++ msgOr message,
        calls := calls, store := store }

/-- Embedding of `checkAuthState` (api.ts lines 849-998).  Note the
shape of the source's `try { decode; maybe refresh } catch (decodeError)
{ fall through }` block: a throw from the expiry-branch `loginWithWallet`
is caught by the same catch and the run continues to the probe. -/
def checkAuthState (env : Env) : AuthCheckResult :=
  let store0 : Store := { token := env.token, walletAddress := env.walletAddress }
  match env.token, env.walletAddress with
  | some t, some w =>
    if t = "" ∨ w = "" then
      { isAuthenticated := false,
        message := "Not authenticated - please connect your wallet",
        calls := [], store := store0 }
    else
      if expSoonCheck t env.parseClaims env.nowMs then
        let outcome := firstLogin env.logins
        let lr := loginWithWallet w ("mock_signature_for_" ++ w) outcome store0
        match lr.result with
        | .ok _ =>
          { isAuthenticated := true,
            message := "Authentication refreshed successfully",
            calls := [NetCall.login lr.requestAddress], store := lr.store }
        | .thrown _ =>
          probePhase env w [NetCall.login lr.requestAddress] lr.store env.logins.tail
      else
        probePhase env w [] store0 env.logins
  | _, _ =>
    { isAuthenticated := false,
      message := "Not authenticated - please connect your wallet",
      calls := [], store := store0 }

/-- Whether a login outcome makes `loginWithWallet` return normally. -/
def loginOk : LoginOutcome → Bool
  | .success data => strTruthy data.token
  | _ => false

/-- Whether a call returned normally. -/
def CallResult.isOk : CallResult α → Bool
  | .ok _ => true
  | .thrown _ => false

end Evrlink

namespace Evrlink

/-- If every listener returns normally, `emitBackgroundAdded` invokes the
whole list in registration order and nothing escapes. -/
theorem emitBackgroundAdded_all_ok (behave : HandlerId → Background → Option String)
    (listeners : List HandlerId) (background : Background)
    (hok : ∀ cb ∈ listeners, behave cb background = none) :
    emitBackgroundAdded behave listeners background = (listeners, none) := by
  induction listeners with
  | nil => rfl
  | cons cb rest ih =>
    have hcb : behave cb background = none := hok cb (List.mem_cons_self cb rest)
    have hrest : ∀ g ∈ rest, behave g background = none :=
      fun g hg => hok g (List.mem_cons_of_mem cb hg)
    simp [emitBackgroundAdded, hcb, ih hrest]

/-- C3 counterexample: two subscribers, the first of which throws — the
second subscriber is never invoked and the exception escapes the emit,
so a throwing handler does abort the broadcast and `publish` does throw
to its caller. -/
theorem emitBackgroundAdded_throw_aborts_cex :
    emitBackgroundAdded (fun cb _ => if cb = 1 then some "boom" else none)
        [1, 2] { id := "bg" }
      = ([1], some "boom") := rfl

/-- C3 amended: when a listener throws, the listeners registered before
it have already run, but the exception propagates out of the emit and
every listener after the thrower is skipped. -/
theorem emitBackgroundAdded_throw_propagates
    (behave : HandlerId → Background → Option String)
    (pre post : List HandlerId) (cb : HandlerId) (background : Background)
    (e : String)
    (hpre : ∀ g ∈ pre, behave g background = none)
    (hcb : behave cb background = some e) :
    emitBackgroundAdded behave (pre ++ cb :: post) background
      = (pre ++ [cb], some e) := by
  induction pre with
  | nil => simp [emitBackgroundAdded, hcb]
  | cons g rest ih =>
    have hg : behave g background = none := hpre g (List.mem_cons_self g rest)
    have ih' := ih fun x hx => hpre x (List.mem_cons_of_mem g hx)
    simp [emitBackgroundAdded, hg, ih']

/-- C3 witness: listeners `[0, 1, 2]` where `1` throws — `0` and `1`
run, `2` is skipped, `"boom"` escapes. -/
theorem emitBackgroundAdded_throw_propagates_witness :
    emitBackgroundAdded (fun cb _ => if cb = 1 then some "boom" else none)
        [0, 1, 2] { id := "bg" }
      = ([0, 1], some "boom") :=
  emitBackgroundAdded_throw_propagates
    (fun cb _ => if cb = 1 then some "boom" else none)
    [0] [2] 1 { id := "bg" } "boom" (by decide) (by decide)

/-- C4 counterexample: subscribing handler `7` twice registers it twice,
but a single `offBackgroundAdded` removes both registrations (the
`filter` drops every occurrence), leaving the list empty rather than
holding one remaining registration. -/
theorem offBackgroundAdded_removes_all_cex :
    onBackgroundAdded (onBackgroundAdded [] 7) 7 = [7, 7] ∧
    offBackgroundAdded (onBackgroundAdded (onBackgroundAdded [] 7) 7) 7 = [] := by
  decide

/-- C4 amended: subscribing twice registers the handler twice and a
publish invokes both registrations; a single matching unsubscribe
removes every registration of that handler (so one call fully removes
it); unsubscribe is idempotent. -/
theorem databaseEvents_subscribe_twice_unsubscribe_all
    (ls : List HandlerId) (h : HandlerId)
    (behave : HandlerId → Background → Option String) (background : Background)
    (hok : ∀ cb ∈ onBackgroundAdded (onBackgroundAdded ls h) h,
      behave cb background = none) :
    (emitBackgroundAdded behave (onBackgroundAdded (onBackgroundAdded ls h) h)
        background).1
      = ls ++ [h, h] ∧
    offBackgroundAdded (onBackgroundAdded (onBackgroundAdded ls h) h) h
      = offBackgroundAdded ls h ∧
    offBackgroundAdded (offBackgroundAdded ls h) h = offBackgroundAdded ls h := by
  refine ⟨?_, ?_, ?_⟩
  · rw [emitBackgroundAdded_all_ok _ _ _ hok]
    simp [onBackgroundAdded]
  · simp [offBackgroundAdded, onBackgroundAdded, List.filter_append]
  · simp [offBackgroundAdded, List.filter_filter]

/-- C4 witness: listener list `[3]`, subscribe `7` twice, all listeners
well behaved. -/
theorem databaseEvents_subscribe_twice_unsubscribe_all_witness :
    (emitBackgroundAdded (fun _ _ => none)
        (onBackgroundAdded (onBackgroundAdded [3] 7) 7) { id := "b" }).1
      = [3] ++ [7, 7] ∧
    offBackgroundAdded (onBackgroundAdded (onBackgroundAdded [3] 7) 7) 7
      = offBackgroundAdded [3] 7 ∧
    offBackgroundAdded (offBackgroundAdded [3] 7) 7 = offBackgroundAdded [3] 7 :=
  databaseEvents_subscribe_twice_unsubscribe_all [3] 7 (fun _ _ => none)
    { id := "b" } (fun _ _ => rfl)

/-- C1 counterexample: with a status request for id 42 in flight, the
polling is cancelled (`clearInterval` via the effect cleanup); when the
late response arrives confirmed it is still acted upon — the Confirmed
toast is published — rather than discarded. -/
theorem checkBackgroundStatus_after_cleanup_publishes_cex :
    (pollingCleanup
        { pendingBackgroundId := some 42, intervalActive := true,
          inFlight := [42], toasts := [] }).intervalActive = false ∧
    (checkBackgroundStatus
        (pollingCleanup
          { pendingBackgroundId := some 42, intervalActive := true,
            inFlight := [42], toasts := [] })
        42
        (.response { status := "confirmed",
                     background := { blockchainId := some "0xabc",
                                     transactionHash := some "0xtxhash" } })).toasts
      = [ToastMsg.mintConfirmed "0xabc" "0xtxhash"] := by
  decide

/-- C1 amended: the cleanup stops the timer, so no further status checks
are issued after cancellation; but a status request already in flight at
cancellation time is not discarded — if its response arrives with status
"confirmed" and a truthy blockchainId, the Confirmed toast is still
published and the pending entry cleared. -/
theorem pollingCleanup_stops_ticks_but_late_response_still_published
    (s : PollerState) (id j : Nat) (r : VerifyResponse)
    (hst : r.status = "confirmed")
    (hb : strTruthy r.background.blockchainId = true) :
    (pollingCleanup s).intervalActive = false ∧
    pollingTick (pollingCleanup s) j = pollingCleanup s ∧
    (checkBackgroundStatus (pollingCleanup s) id (.response r)).toasts
      = s.toasts ++ [ToastMsg.mintConfirmed (r.background.blockchainId.getD "")
                       (r.background.transactionHash.getD "")] ∧
    (checkBackgroundStatus (pollingCleanup s) id (.response r)).pendingBackgroundId
      = none := by
  refine ⟨rfl, ?_, ?_, ?_⟩
  · simp [pollingTick, pollingCleanup]
  · simp [checkBackgroundStatus, pollingCleanup, hst, hb]
  · simp [checkBackgroundStatus, pollingCleanup, hst, hb]

/-- C1 witness: concrete cancelled run with a late confirmed response
for id 7. -/
theorem pollingCleanup_stops_ticks_but_late_response_still_published_witness :
    (pollingCleanup
        { pendingBackgroundId := some 7, intervalActive := true,
          inFlight := [7], toasts := [] }).intervalActive = false ∧
    pollingTick
        (pollingCleanup
          { pendingBackgroundId := some 7, intervalActive := true,
            inFlight := [7], toasts := [] }) 7
      = pollingCleanup
          { pendingBackgroundId := some 7, intervalActive := true,
            inFlight := [7], toasts := [] } ∧
    (checkBackgroundStatus
        (pollingCleanup
          { pendingBackgroundId := some 7, intervalActive := true,
            inFlight := [7], toasts := [] })
        7
        (.response { status := "confirmed",
                     background := { blockchainId := some "0xdef",
                                     transactionHash := some "0xtx" } })).toasts
      = [] ++ [ToastMsg.mintConfirmed "0xdef" "0xtx"] ∧
    (checkBackgroundStatus
        (pollingCleanup
          { pendingBackgroundId := some 7, intervalActive := true,
            inFlight := [7], toasts := [] })
        7
        (.response { status := "confirmed",
                     background := { blockchainId := some "0xdef",
                                     transactionHash := some "0xtx" } })).pendingBackgroundId
      = none :=
  pollingCleanup_stops_ticks_but_late_response_still_published
    { pendingBackgroundId := some 7, intervalActive := true,
      inFlight := [7], toasts := [] }
    7 7
    { status := "confirmed",
      background := { blockchainId := some "0xdef", transactionHash := some "0xtx" } }
    rfl rfl

/-- C10 counterexample: the backend rejects a transfer with the
domain-level message "only the owner may transfer", but the caller of
`transferGiftCard` receives the generic "Failed to transfer gift card"
instead of that message. -/
theorem transferGiftCard_replaces_backend_message_cex :
    transferGiftCard (.failure (some "only the owner may transfer"))
      = .thrown "Failed to transfer gift card" := rfl

/-- C10 amended: `claimGiftCard` passes a (non-empty) backend
domain-error message through unmodified to its caller, but
`transferGiftCard` discards the backend message and always reports the
generic "Failed to transfer gift card". -/
theorem giftCard_backend_message_passthrough (m : String) (hm : m ≠ "") :
    claimGiftCard (.failure (some m))
      = { success := false, data := none, error := some m } ∧
    transferGiftCard (.failure (some m))
      = .thrown "Failed to transfer gift card" := by
  exact ⟨by simp [claimGiftCard, hm], rfl⟩

/-- C10 witness: the "only the owner may transfer" message flows through
`claimGiftCard` intact and is lost through `transferGiftCard`. -/
theorem giftCard_backend_message_passthrough_witness :
    claimGiftCard (.failure (some "only the owner may transfer"))
      = { success := false, data := none,
          error := some "only the owner may transfer" } ∧
    transferGiftCard (.failure (some "only the owner may transfer"))
      = .thrown "Failed to transfer gift card" :=
  giftCard_backend_message_passthrough "only the owner may transfer" (by decide)

/-- `loginWithWallet` always puts the lowercased address on the wire,
whatever the outcome. -/
theorem loginWithWallet_requestAddress (a s : String) (o : LoginOutcome)
    (st : Store) :
    (loginWithWallet a s o st).requestAddress = jsToLowerCase a := by
  rcases o with ⟨⟨tok⟩⟩ | ⟨be, m⟩ | m
  · cases tok with
    | none => rfl
    | some t => by_cases ht : t = "" <;> simp [loginWithWallet, ht]
  · rfl
  · rfl

/-- `loginWithWallet` returns normally exactly when the outcome carries a
truthy token. -/
theorem loginWithWallet_isOk (a s : String) (o : LoginOutcome) (st : Store) :
    (loginWithWallet a s o st).result.isOk = loginOk o := by
  rcases o with ⟨⟨tok⟩⟩ | ⟨be, m⟩ | m
  · cases tok with
    | none => rfl
    | some t =>
      by_cases ht : t = "" <;>
        simp [loginWithWallet, loginOk, strTruthy, ht, CallResult.isOk]
  · rfl
  · rfl

/-- An undecodable token never triggers the expiry branch. -/
theorem expSoonCheck_eq_false_of_opaque (t : String)
    (parse : String → Option Claims) (nowMs : Int)
    (hind : (splitOnDots t).length ≠ 3 ∨
      ∃ sa sb sc, splitOnDots t = [sa, sb, sc] ∧ parse sb = none) :
    expSoonCheck t parse nowMs = false := by
  rcases hind with hlen | ⟨sa, sb, sc, hsp, hp⟩
  · rcases hsp : splitOnDots t with _ | ⟨a, _ | ⟨b, _ | ⟨c, _ | ⟨d, rest⟩⟩⟩⟩
    · simp [expSoonCheck, hsp]
    · simp [expSoonCheck, hsp]
    · simp [expSoonCheck, hsp]
    · exact absurd (by simp [hsp]) hlen
    · simp [expSoonCheck, hsp]
  · simp [expSoonCheck, hsp, hp]

/-- A `Valid` local evaluation means both keys are present and non-empty
and the expiry branch is off. -/
theorem evaluateLocal_valid_elim (t w : String)
    (parse : String → Option Claims) (nowMs : Int)
    (hvalid : evaluateLocal (some t) (some w) parse nowMs = .Valid) :
    ¬(t = "" ∨ w = "") ∧ expSoonCheck t parse nowMs = false := by
  by_cases h1 : t = "" ∨ w = ""
  · simp [evaluateLocal, h1] at hvalid
  · by_cases h2 : expSoonCheck t parse nowMs
    · simp [evaluateLocal, h1, h2] at hvalid
    · exact ⟨h1, by simpa using h2⟩

/-- Under present non-empty keys and a cold expiry branch,
`checkAuthState` is exactly the probe phase. -/
theorem checkAuthState_eq_probePhase (env : Env) (t w : String)
    (htok : env.token = some t) (hw : env.walletAddress = some w)
    (hcond : ¬(t = "" ∨ w = ""))
    (hexp : expSoonCheck t env.parseClaims env.nowMs = false) :
    checkAuthState env
      = probePhase env w [] { token := some t, walletAddress := some w }
          env.logins := by
  simp [checkAuthState, htok, hw, hcond, hexp]

/-- C7: with the token or the wallet address absent, the local
evaluation is `Unauthenticated` and `checkAuthState` returns
not-authenticated immediately with zero network calls. -/
theorem checkAuthState_missing_credentials (env : Env)
    (h : env.token = none ∨ env.walletAddress = none) :
    evaluateLocal env.token env.walletAddress env.parseClaims env.nowMs
      = .Unauthenticated ∧
    (checkAuthState env).isAuthenticated = false ∧
    (checkAuthState env).calls = [] := by
  obtain ⟨tok, w, p, n, pr, ls⟩ := env
  cases tok <;> cases w <;> simp_all [checkAuthState, evaluateLocal]

/-- C7 witness: no stored token. -/
theorem checkAuthState_missing_credentials_witness :
    evaluateLocal none (some "0xabc") (fun _ => none) 0
      = SessionState.Unauthenticated ∧
    (checkAuthState
      { token := none, walletAddress := some "0xabc",
        parseClaims := fun _ => none, nowMs := 0,
        probe := .success true, logins := [] }).isAuthenticated = false ∧
    (checkAuthState
      { token := none, walletAddress := some "0xabc",
        parseClaims := fun _ => none, nowMs := 0,
        probe := .success true, logins := [] }).calls = [] :=
  checkAuthState_missing_credentials
    { token := none, walletAddress := some "0xabc",
      parseClaims := fun _ => none, nowMs := 0,
      probe := .success true, logins := [] }
    (Or.inl rfl)

/-- C8: a token that does not split into three dot-separated segments, or
whose middle segment fails to decode, is treated as indeterminate: the
local evaluation falls open to `Valid` and `checkAuthState` proceeds to
the liveness probe instead of logging the session out. -/
theorem checkAuthState_opaque_token_fails_open (env : Env) (t w : String)
    (htok : env.token = some t) (hw : env.walletAddress = some w)
    (ht : t ≠ "") (hwne : w ≠ "")
    (hind : (splitOnDots t).length ≠ 3 ∨
      ∃ sa sb sc, splitOnDots t = [sa, sb, sc] ∧ env.parseClaims sb = none) :
    evaluateLocal env.token env.walletAddress env.parseClaims env.nowMs
      = .Valid ∧
    (checkAuthState env).calls.head? = some NetCall.probe := by
  have hexp := expSoonCheck_eq_false_of_opaque t env.parseClaims env.nowMs hind
  have hcond : ¬(t = "" ∨ w = "") := by
    rintro (h | h)
    · exact ht h
    · exact hwne h
  constructor
  · rw [htok, hw]
    simp [evaluateLocal, hcond, hexp]
  · rw [checkAuthState_eq_probePhase env t w htok hw hcond hexp]
    rcases hp : env.probe with hid | ⟨st, msg0⟩
    · cases hid <;> simp [probePhase, hp]
    · by_cases h401 : st = some 401
      · subst h401
        rcases hres : (loginWithWallet w ("mock_signature_for_" ++ w)
            (firstLogin env.logins)
            { token := some t, walletAddress := some w }).result with d | m <;>
          simp [probePhase, hp, hres]
      · simp [probePhase, hp, h401]

/-- C8 witness: a stored token `"notajwt"` with no dots (one segment)
still reaches the probe. -/
theorem checkAuthState_opaque_token_fails_open_witness :
    evaluateLocal (some "notajwt") (some "0xabc") (fun _ => none) 0
      = SessionState.Valid ∧
    (checkAuthState
      { token := some "notajwt", walletAddress := some "0xabc",
        parseClaims := fun _ => none, nowMs := 0,
        probe := .success true, logins := [] }).calls.head?
      = some NetCall.probe :=
  checkAuthState_opaque_token_fails_open
    { token := some "notajwt", walletAddress := some "0xabc",
      parseClaims := fun _ => none, nowMs := 0,
      probe := .success true, logins := [] }
    "notajwt" "0xabc" rfl rfl (by decide) (by decide) (Or.inl (by decide))

/-- C2 counterexample: a three-segment token whose decoded claims carry
the expiry instant `exp = 0` (so `exp - now < 10` minutes at `now = 0`)
is classified `Valid`, not `ExpiringSoon`: the source guards the expiry
check with JavaScript truthiness (`if (payload.exp)`), which skips a
zero expiry. -/
theorem evaluateLocal_exp_zero_cex :
    splitOnDots "aa.bb.cc" = ["aa", "bb", "cc"] ∧
    (0 : Int) * 1000 - 0 < 10 * 60 * 1000 ∧
    evaluateLocal (some "aa.bb.cc") (some "0xabc")
        (fun s => if s = "bb" then some { exp := some 0 } else none) 0
      = SessionState.Valid := by
  decide

/-- C2 amended: for a session whose token decodes into three segments
with claims containing a nonzero expiry `exp` (seconds), the local
evaluation is `ExpiringSoon` exactly when `exp` is less than ten minutes
away — including `exp` in the past, which takes the same branch — and
`Valid` when at least ten minutes remain.  (A decoded `exp` equal to 0
is skipped by the JS truthiness guard and classified `Valid`.) -/
theorem evaluateLocal_expiry_boundary (t w : String)
    (parse : String → Option Claims) (nowMs e : Int) (sa sb sc : String)
    (ht : t ≠ "") (hw : w ≠ "")
    (hsplit : splitOnDots t = [sa, sb, sc])
    (hparse : parse sb = some { exp := some e })
    (he : e ≠ 0) :
    (evaluateLocal (some t) (some w) parse nowMs = .ExpiringSoon
      ↔ e * 1000 - nowMs < 10 * 60 * 1000) ∧
    (10 * 60 * 1000 ≤ e * 1000 - nowMs →
      evaluateLocal (some t) (some w) parse nowMs = .Valid) := by
  have hcond : ¬(t = "" ∨ w = "") := by
    rintro (h | h)
    · exact ht h
    · exact hw h
  have hexp : expSoonCheck t parse nowMs
      = decide (e * 1000 - nowMs < 10 * 60 * 1000) := by
    simp [expSoonCheck, hsplit, hparse, he]
  by_cases hc : e * 1000 - nowMs < 10 * 60 * 1000
  · simp [evaluateLocal, hcond, hexp, hc]
  · constructor
    · simp [evaluateLocal, hcond, hexp, hc]
    · intro _
      simp [evaluateLocal, hcond, hexp, hc]
      omega

/-- C2 witness: expiry one second after epoch, clock at epoch — less
than ten minutes remain, so the evaluation is `ExpiringSoon`. -/
theorem evaluateLocal_expiry_boundary_witness :
    evaluateLocal (some "aa.bb.cc") (some "0xabc")
        (fun s => if s = "bb" then some { exp := some 1 } else none) 0
      = SessionState.ExpiringSoon :=
  ((evaluateLocal_expiry_boundary "aa.bb.cc" "0xabc"
      (fun s => if s = "bb" then some { exp := some 1 } else none)
      0 1 "aa" "bb" "cc"
      (by decide) (by decide) (by decide) (by decide) (by decide)).1).mpr
    (by norm_num)

/-- C6: when the local evaluation is `Valid`, `checkAuthState` issues
exactly one liveness probe; a 401 rejection of the probe triggers
exactly one refresh whose outcome becomes the reported result; any other
rejection yields not-authenticated with no refresh; no run makes more
than two network calls. -/
theorem checkAuthState_valid_probe_policy (env : Env) (t w : String)
    (htok : env.token = some t) (hw : env.walletAddress = some w)
    (hvalid : evaluateLocal env.token env.walletAddress env.parseClaims
        env.nowMs = .Valid) :
    (checkAuthState env).calls.count NetCall.probe = 1 ∧
    (checkAuthState env).calls.length ≤ 2 ∧
    (∀ msg, env.probe = .failure (some 401) msg →
      (checkAuthState env).calls
        = [NetCall.probe, NetCall.login (jsToLowerCase w)] ∧
      (checkAuthState env).isAuthenticated
        = loginOk (firstLogin env.logins)) ∧
    (∀ status msg, env.probe = .failure status msg → status ≠ some 401 →
      (checkAuthState env).calls = [NetCall.probe] ∧
      (checkAuthState env).isAuthenticated = false) := by
  rw [htok, hw] at hvalid
  obtain ⟨hcond, hexp⟩ :=
    evaluateLocal_valid_elim t w env.parseClaims env.nowMs hvalid
  rw [checkAuthState_eq_probePhase env t w htok hw hcond hexp]
  set st0 : Store := { token := some t, walletAddress := some w } with hst0
  rcases hp : env.probe with hid | ⟨status, msg0⟩
  · refine ⟨?_, ?_, ?_, ?_⟩
    · cases hid <;> simp [probePhase, hp]
    · cases hid <;> simp [probePhase, hp]
    · intro msg hmsg
      exact absurd hmsg (by simp)
    · intro status msg hmsg _
      exact absurd hmsg (by simp)
  · by_cases h401 : status = some 401
    · subst h401
      have hreq := loginWithWallet_requestAddress w
        ("mock_signature_for_" ++ w) (firstLogin env.logins) st0
      have hok := loginWithWallet_isOk w
        ("mock_signature_for_" ++ w) (firstLogin env.logins) st0
      rcases hres : (loginWithWallet w ("mock_signature_for_" ++ w)
          (firstLogin env.logins) st0).result with d | m
      · refine ⟨?_, ?_, ?_, ?_⟩
        · simp [probePhase, hp, hres]
        · simp [probePhase, hp, hres]
        · intro msg hmsg
          refine ⟨by simp [probePhase, hp, hres, hreq], ?_⟩
          rw [hres] at hok
          simp [CallResult.isOk] at hok
          simp [probePhase, hp, hres, ← hok]
        · intro status msg hmsg hne
          injection hmsg with h1 h2
          exact absurd h1.symm hne
      · refine ⟨?_, ?_, ?_, ?_⟩
        · simp [probePhase, hp, hres]
        · simp [probePhase, hp, hres]
        · intro msg hmsg
          refine ⟨by simp [probePhase, hp, hres, hreq], ?_⟩
          rw [hres] at hok
          simp [CallResult.isOk] at hok
          simp [probePhase, hp, hres, ← hok]
        · intro status msg hmsg hne
          injection hmsg with h1 h2
          exact absurd h1.symm hne
    · refine ⟨?_, ?_, ?_, ?_⟩
      · simp [probePhase, hp, h401]
      · simp [probePhase, hp, h401]
      · intro msg hmsg
        injection hmsg with h1 h2
        exact absurd h1 h401
      · intro status' msg hmsg hne
        injection hmsg with h1 h2
        subst h1
        simp [probePhase, hp, h401]

/-- C6 witness: a locally-valid session whose probe is rejected with 401
and whose single refresh succeeds. -/
theorem checkAuthState_valid_probe_policy_witness :
    evaluateLocal (some "tok") (some "0xw") (fun _ => none) 0
      = SessionState.Valid ∧
    (checkAuthState
      { token := some "tok", walletAddress := some "0xw",
        parseClaims := fun _ => none, nowMs := 0,
        probe := .failure (some 401) "Request failed",
        logins := [.success { token := some "t2" }] }).calls
      = [NetCall.probe, NetCall.login "0xw"] :=
  ⟨by decide,
   ((checkAuthState_valid_probe_policy
      { token := some "tok", walletAddress := some "0xw",
        parseClaims := fun _ => none, nowMs := 0,
        probe := .failure (some 401) "Request failed",
        logins := [.success { token := some "t2" }] }
      "tok" "0xw" rfl rfl (by decide)).2.2.1 "Request failed" rfl).1⟩

/-- C5: a 200 login response whose body has no `token` field makes
`loginWithWallet` throw — the line-780 missing-token error, re-wrapped by
the catch at line 823 into the message the caller sees — and the store is
the untouched input store: neither the token key nor the wallet-address
key is written (the throw precedes both `setItem` calls). -/
theorem loginWithWallet_missing_token_fails_store_unchanged
    (walletAddress signature : String) (store : Store) :
    loginWithWallet walletAddress signature (.success { token := none }) store
      = { store := store,
          requestAddress := jsToLowerCase walletAddress,
          result := .thrown
            "Failed to login with wallet: Authentication failed: server response missing token" } := rfl

/-- C9: on a successful login the wire request carries the lowercased
address while the store receives the caller-supplied original-case
address and the returned token. -/
theorem loginWithWallet_success_wire_lowercase_store_original
    (walletAddress signature t : String) (store : Store) (ht : t ≠ "") :
    loginWithWallet walletAddress signature (.success { token := some t }) store
      = { store := { token := some t, walletAddress := some walletAddress },
          requestAddress := jsToLowerCase walletAddress,
          result := .ok { token := some t } } := by
  simp [loginWithWallet, ht]

/-- C9 witness: logging in as `"0xAbC"` sends `"0xabc"` on the wire but
stores `"0xAbC"` verbatim. -/
theorem loginWithWallet_success_wire_lowercase_store_original_witness :
    loginWithWallet "0xAbC" "sig" (.success { token := some "tok" }) { token := none, walletAddress := none }
      = { store := { token := some "tok", walletAddress := some "0xAbC" },
          requestAddress := "0xabc",
          result := .ok { token := some "tok" } } := by
  rw [loginWithWallet_success_wire_lowercase_store_original "0xAbC" "sig" "tok"
    { token := none, walletAddress := none } (by decide)]
  decide

end Evrlink
